import Mathlib

/-!
# Verification of the anonpy CLI shell and provider-client contracts

A shallow embedding of the anonpy repository's CLI entry point
(`src/anonpy/__main__.py`) and of the provider-client / scoped-logger
contracts exercised by `tests/anonpy_test.py`.

Python values appearing in preview records are modelled by `PyVal`,
Python exceptions relevant to the CLI by `PyExc`.  The command functions
`preview` and `download` of `__main__.py` are modelled as pure functions
over an environment `CliEnv` that supplies the provider client's
responses, the filesystem and the interactive prompt answers; they
return the trace of provider operations issued together with the
exception escaping the command, if any.
-/

set_option autoImplicit false

/-- A Python value as it occurs in a JSON-decoded preview record:
a string, a boolean, an integer, or `None`. -/
inductive PyVal where
  | str (s : String)
  | bool (b : Bool)
  | int (n : Int)
  | none
  deriving DecidableEq, Repr

/-- A preview record: the JSON object returned by the provider's
preview endpoint, a mapping from string keys to values
(`src/anonpy/__main__.py` treats it as a `dict`). -/
abbrev PreviewRecord := List (String × PyVal)

/-- `dict.get(key)`: the value at the first matching key, or `none`. -/
def recGet (rec : PreviewRecord) (k : String) : Option PyVal :=
  match rec.find? (fun kv => kv.1 = k) with
  | Option.some kv => Option.some kv.2
  | Option.none => Option.none

/-- The Python exceptions distinguished by the CLI shell `main`
(`__main__.py` lines 85-98).  `keyboardInterrupt` and `baseOther` are
`BaseException`s outside the `Exception` hierarchy; all other
constructors are `Exception`s.  `otherError` stands for any `Exception`
not of the earlier classes, carrying its `str()` message. -/
inductive PyExc where
  | keyboardInterrupt
  | notImplementedError
  | httpError (responseText : String)
  | typeError (msg : String)
  | interruptedError (msg : String)
  | otherError (msg : String)
  | baseOther
  deriving DecidableEq, Repr

/-- What `main` renders on its way out: nothing printed, the parser's
help text, a line on stderr, or the bug-report note of the bare
`except:` clause. -/
inductive Rendering where
  | silentExit
  | helpText
  | stderrLine (s : String)
  | bugReportNote
  deriving DecidableEq, Repr

/-- The `except` chain of `main` (`__main__.py` lines 85-98), applied in
clause order: `KeyboardInterrupt → pass`, `NotImplementedError →
parser.print_help()`, `HTTPError → print(http_error.response.text,
file=sys.stderr)`, `Exception → print(exception, file=sys.stderr)`,
bare `except → print(<bug report note>, file=sys.stderr)`. -/
def handleExc : PyExc → Rendering
  | PyExc.keyboardInterrupt => Rendering.silentExit
  | PyExc.notImplementedError => Rendering.helpText
  | PyExc.httpError body => Rendering.stderrLine body
  | PyExc.typeError msg => Rendering.stderrLine msg
  | PyExc.interruptedError msg => Rendering.stderrLine msg
  | PyExc.otherError msg => Rendering.stderrLine msg
  | PyExc.baseOther => Rendering.bugReportNote

/-- The points inside `main`'s `try` block at which an exception can be
raised (`__main__.py` lines 66-83): during `get_resource_path`, during
`PixelDrain(**kwargs)` construction, during the
`set_base_path(...).add_handler(...)` chain, or during the dispatched
command itself. -/
inductive FailPoint where
  | resourcePath
  | construction
  | loggerConfig
  | dispatch
  deriving DecidableEq, Repr

/-- Whether the local variable `provider` is bound when the `finally`
block runs: it is bound exactly when `PixelDrain(**kwargs)` completed. -/
def providerBoundAt : FailPoint → Bool
  | FailPoint.resourcePath => false
  | FailPoint.construction => false
  | FailPoint.loggerConfig => true
  | FailPoint.dispatch => true

/-- One execution of `main`'s `try`/`except`/`finally`: either the
dispatched command ran to completion, or an exception was raised at
some point inside the `try` block. -/
inductive MainOutcome where
  | completes
  | raisesAt (fp : FailPoint) (e : PyExc)
  deriving DecidableEq, Repr

/-- The observable result of one execution of `main` from line 66 on:
what the exception handlers printed (`Option.none` when no handler
ran or the handler itself failed), whether `deinit()` ran, whether
`provider.logger.shutdown()` was reached, and whether the `finally`
block itself raised (`provider` unbound → `NameError`). -/
structure MainResult where
  rendering : Option Rendering
  deinitCalled : Bool
  shutdownCalled : Bool
  finallyRaises : Bool
  deriving DecidableEq, Repr

/-- `main`, lines 66-101.  On an exception the matching `except` clause
renders it (the bare `except:` clause at a `resourcePath` failure would
itself hit an unbound `module_folder` and print nothing); the `finally`
block always calls `deinit()`, then evaluates `provider.logger`:
when `provider` was never bound this raises `NameError` and
`shutdown()` is never called. -/
def mainRun : MainOutcome → MainResult
  | MainOutcome.completes =>
      { rendering := Option.none
        deinitCalled := true
        shutdownCalled := true
        finallyRaises := false }
  | MainOutcome.raisesAt fp e =>
      let bound := providerBoundAt fp
      let rendering :=
        if fp = FailPoint.resourcePath ∧ e = PyExc.baseOther
        then Option.none
        else Option.some (handleExc e)
      { rendering := rendering
        deinitCalled := true
        shutdownCalled := bound
        finallyRaises := !bound }

/-- C1 -- The CLI entry point maps every failure mode of a dispatched
command to a distinct exit rendering: `KeyboardInterrupt` is swallowed
(silent exit), `NotImplementedError` prints the parser's help text,
`HTTPError` prints the raw response body on stderr, and any other
`Exception` prints the exception's message on stderr; the three kinds
of rendering are pairwise distinct. -/
theorem main_maps_dispatch_failures_to_distinct_renderings :
    (mainRun (MainOutcome.raisesAt FailPoint.dispatch PyExc.keyboardInterrupt)).rendering
      = Option.some Rendering.silentExit
    ∧ (mainRun (MainOutcome.raisesAt FailPoint.dispatch PyExc.notImplementedError)).rendering
      = Option.some Rendering.helpText
    ∧ (∀ body : String,
        (mainRun (MainOutcome.raisesAt FailPoint.dispatch (PyExc.httpError body))).rendering
          = Option.some (Rendering.stderrLine body))
    ∧ (∀ msg : String,
        (mainRun (MainOutcome.raisesAt FailPoint.dispatch (PyExc.otherError msg))).rendering
          = Option.some (Rendering.stderrLine msg))
    ∧ Rendering.silentExit ≠ Rendering.helpText
    ∧ (∀ s : String, Rendering.silentExit ≠ Rendering.stderrLine s)
    ∧ (∀ s : String, Rendering.helpText ≠ Rendering.stderrLine s) := by
  refine ⟨rfl, rfl, fun body => rfl, fun msg => rfl, ?_, ?_, ?_⟩
  · intro h; cases h
  · intro s h; cases h
  · intro s h; cases h

/-- C2 (counterexample) -- It is not the case that the logger is shut
down on every execution path of `main`: a `KeyboardInterrupt` raised
during `PixelDrain(**kwargs)` construction is a handled exception, yet
`provider` is unbound in the `finally` block, `shutdown()` is never
reached, and the `finally` block itself raises. -/
theorem shutdown_not_called_on_every_path :
    ¬ (∀ o : MainOutcome, (mainRun o).shutdownCalled = true) := by
  intro h
  have := h (MainOutcome.raisesAt FailPoint.construction PyExc.keyboardInterrupt)
  simp [mainRun, providerBoundAt] at this

/-- Whether, on this outcome, the `provider` variable was successfully
bound before the `finally` block ran (normal completion, or an
exception raised after construction). -/
def providerBound : MainOutcome → Bool
  | MainOutcome.completes => true
  | MainOutcome.raisesAt fp _ => providerBoundAt fp

/-- C2 (amended) -- On every execution path of `main` on which the
provider was constructed — normal completion, and any handled exception
(keyboard interruption included) raised during logger configuration or
command dispatch — `provider.logger.shutdown()` is called before the
process exits; on paths failing before construction it is not. -/
theorem shutdown_called_when_provider_bound
    (o : MainOutcome) (h : providerBound o = true) :
    (mainRun o).shutdownCalled = true := by
  cases o with
  | completes => rfl
  | raisesAt fp e =>
      cases fp <;> simp_all [mainRun, providerBound, providerBoundAt]

/-- Witness for the amended C2 at a concrete path: a `KeyboardInterrupt`
raised during command dispatch still reaches `shutdown()`. -/
theorem shutdown_called_when_provider_bound_witness :
    providerBound (MainOutcome.raisesAt FailPoint.dispatch PyExc.keyboardInterrupt) = true
    ∧ (mainRun (MainOutcome.raisesAt FailPoint.dispatch PyExc.keyboardInterrupt)).shutdownCalled
        = true :=
  ⟨rfl, shutdown_called_when_provider_bound
    (MainOutcome.raisesAt FailPoint.dispatch PyExc.keyboardInterrupt) rfl⟩

/-- A provider-client operation (or local checksum step) issued by a
CLI command, recording the arguments it was called with. -/
inductive Ev where
  | previewOp (r : String)
  | downloadOp (r : String) (dest : List String)
  | checksumAt (p : List String)
  deriving DecidableEq, Repr

/-- The environment a CLI command runs in: the provider client's
responses (`anon.preview` / `anon.download`), the filesystem's
answer to `Path(...).exists()` (paths as component lists), the user's
answers to successive `input()` prompts as converted by `str2bool`,
and the process's current working directory. -/
structure CliEnv where
  previewResult : String → Except PyExc PreviewRecord
  downloadResult : String → Except PyExc Unit
  fileExists : List String → Bool
  promptAnswer : Nat → Bool
  cwd : List String

/-- `preview.get("name")` (line 35).  Preview names are strings; a
record with no `name` key yields `Option.none`, mirroring `dict.get`. -/
def nameOf (rec : PreviewRecord) : Option String :=
  match recGet rec "name" with
  | Option.some (PyVal.str s) => Option.some s
  | _ => Option.none

/-- How Python resolves the bare file name in `Path(file).exists()`
(line 37) and `Checksum.compute(file, MD5)` (line 45): relative to the
current working directory, not to `args.path`. -/
def resolveFromCwd (env : CliEnv) (f : String) : List String :=
  env.cwd ++ [f]

/-- Lines 42-47 of `__main__.py`: `anon.download(resource, args.path,
progressbar=args.verbose)`, then, when verbose, `Checksum.compute(file,
MD5)` on the bare previewed name.  `rest` is the continuation for the
remaining resources; `Checksum.compute(None, MD5)` (no `name` key)
raises `TypeError`. -/
def downloadStep (env : CliEnv) (verbose : Bool) (dest : List String)
    (r : String) (file : Option String) (rest : List Ev × Option PyExc) :
    List Ev × Option PyExc :=
  match env.downloadResult r with
  | Except.error e => ([Ev.previewOp r, Ev.downloadOp r dest], Option.some e)
  | Except.ok _ =>
    if verbose then
      match file with
      | Option.some f =>
          (Ev.previewOp r :: Ev.downloadOp r dest ::
            Ev.checksumAt (resolveFromCwd env f) :: rest.1, rest.2)
      | Option.none =>
          ([Ev.previewOp r, Ev.downloadOp r dest],
           Option.some (PyExc.typeError
             "expected str, bytes or os.PathLike object, not NoneType"))
    else
      (Ev.previewOp r :: Ev.downloadOp r dest :: rest.1, rest.2)

/-- The loop body of the `download` command (`__main__.py` lines
32-47): per resource, `anon.preview`, `preview.get("name")`, the
optional overwrite prompt (`args.check and file is not None and
Path(file).exists()`; a declined answer `continue`s), then
`downloadStep`.  `k` indexes the next `input()` answer. -/
def downloadGo (env : CliEnv) (check verbose : Bool) (dest : List String) :
    List String → Nat → List Ev × Option PyExc
  | [], _ => ([], Option.none)
  | r :: rs, k =>
    match env.previewResult r with
    | Except.error e => ([Ev.previewOp r], Option.some e)
    | Except.ok rec =>
      let file := nameOf rec
      if check && (match file with
          | Option.some f => env.fileExists (resolveFromCwd env f)
          | Option.none => false) then
        if env.promptAnswer k then
          downloadStep env verbose dest r file (downloadGo env check verbose dest rs (k+1))
        else
          let rest := downloadGo env check verbose dest rs (k+1)
          (Ev.previewOp r :: rest.1, rest.2)
      else
        downloadStep env verbose dest r file (downloadGo env check verbose dest rs k)

/-- The `download` command (line 33): iterates over `args.resource or
read_file(args.batch_file)`. -/
def downloadCommand (env : CliEnv) (check verbose : Bool) (dest : List String)
    (resources batchFile : List String) : List Ev × Option PyExc :=
  downloadGo env check verbose dest
    (if resources.isEmpty then batchFile else resources) 0

/-- The name of a Python value's type, as `str.join`'s error message
reports it. -/
def pyTypeName : PyVal → String
  | PyVal.str _ => "str"
  | PyVal.bool _ => "bool"
  | PyVal.int _ => "int"
  | PyVal.none => "NoneType"

/-- `str.join` iterating its argument: every item must itself be a
string, otherwise `TypeError` is raised at the first offending index. -/
def strJoinGo : List PyVal → Nat → Except PyExc (List String)
  | [], _ => Except.ok []
  | PyVal.str s :: vs, i =>
    match strJoinGo vs (i + 1) with
    | Except.ok rest => Except.ok (s :: rest)
    | Except.error e => Except.error e
  | v :: _, i =>
    Except.error (PyExc.typeError
      ("sequence item " ++ toString i ++ ": expected str instance, "
        ++ pyTypeName v ++ " found"))

/-- `sep.join(vals)`: Python's `str.join`. -/
def strJoin (sep : String) (vals : List PyVal) : Except PyExc String :=
  match strJoinGo vals 0 with
  | Except.ok parts => Except.ok (String.intercalate sep parts)
  | Except.error e => Except.error e

/-- A value as `json.dumps` renders it. -/
def pyValRepr : PyVal → String
  | PyVal.str s => "\"" ++ s ++ "\""
  | PyVal.bool true => "true"
  | PyVal.bool false => "false"
  | PyVal.int n => toString n
  | PyVal.none => "null"

/-- `json.dumps(preview)` (indentation elided). -/
def jsonDumps (rec : PreviewRecord) : String :=
  "\x7b" ++ String.intercalate ", "
    (rec.map fun kv => "\"" ++ kv.1 ++ "\": " ++ pyValRepr kv.2) ++ "\x7d"

/-- The `preview` command (`__main__.py` lines 19-22): per resource,
`anon.preview(resource)`, then `json.dumps(preview, indent=4)` when
verbose, else `",".join(preview.values())`; returns the printed lines
and the exception escaping the loop, if any. -/
def previewCommand (env : CliEnv) (verbose : Bool) :
    List String → List String × Option PyExc
  | [] => ([], Option.none)
  | r :: rs =>
    match env.previewResult r with
    | Except.error e => ([], Option.some e)
    | Except.ok rec =>
      match (if verbose then Except.ok (jsonDumps rec)
             else strJoin "," (rec.map fun kv => kv.2)) with
      | Except.error e => ([], Option.some e)
      | Except.ok line =>
        let rest := previewCommand env verbose rs
        (line :: rest.1, rest.2)

/-- Modelled from the spec: `MockPixelDrain.get_preview_response` (the
tests' mock-data module is not among the sources) returns, for an
existing resource, a JSON record of exactly 24 keys with `success =
true` and `downloads = 1`, following the PixelDrain file-info schema. -/
def get_preview_response : PreviewRecord :=
  [("id", PyVal.str "abc123"),
   ("name", PyVal.str "foo.txt"),
   ("size", PyVal.int 1024),
   ("views", PyVal.int 1),
   ("bandwidth_used", PyVal.int 1024),
   ("bandwidth_used_paid", PyVal.int 0),
   ("downloads", PyVal.int 1),
   ("date_upload", PyVal.str "2024-02-14T02:06:46Z"),
   ("date_last_view", PyVal.str "2024-02-14T02:06:46Z"),
   ("mime_type", PyVal.str "text/plain"),
   ("thumbnail_href", PyVal.str "/file/abc123/thumbnail"),
   ("hash_sha256", PyVal.str "b5bb9d8014a0f9b1d61e21e796d78dcc"),
   ("delete_after_date", PyVal.str "0001-01-01T00:00:00Z"),
   ("delete_after_downloads", PyVal.int 0),
   ("availability", PyVal.str ""),
   ("availability_message", PyVal.str ""),
   ("abuse_type", PyVal.str ""),
   ("abuse_reporter_name", PyVal.str ""),
   ("can_edit", PyVal.bool false),
   ("can_download", PyVal.bool true),
   ("show_ads", PyVal.bool true),
   ("allow_video_player", PyVal.bool true),
   ("download_speed_limit", PyVal.int 0),
   ("success", PyVal.bool true)]

/-- A concrete environment for the CLI commands: the provider knows the
resource `"abc123"` (answering with the mock record), downloads
succeed, a file named `foo.txt` exists in the working directory
`home`, and every overwrite prompt is answered `n`. -/
def mockEnv : CliEnv :=
  { previewResult := fun r =>
      if r = "abc123" then Except.ok get_preview_response
      else Except.error (PyExc.httpError "\x7b\"success\": false\x7d")
    downloadResult := fun _ => Except.ok ()
    fileExists := fun p => decide (p = ["home", "foo.txt"])
    promptAnswer := fun _ => false
    cwd := ["home"] }

/-- C3 (counterexample) -- Declining the overwrite prompt does not
raise `InterruptedError`: with `--check` set, the previewed name
existing in the working directory and the prompt answered `n`, the
`download` command completes with no exception at all — the item is
merely skipped (only the preview operation was issued). -/
theorem declined_prompt_raises_nothing :
    downloadCommand mockEnv true false ["downloads"] ["abc123"] []
      = ([Ev.previewOp "abc123"], Option.none)
    ∧ (downloadCommand mockEnv true false ["downloads"] ["abc123"] []).2
        ≠ Option.some (PyExc.interruptedError "user cancelled") := by
  constructor
  · rfl
  · intro h
    rw [show (downloadCommand mockEnv true false ["downloads"] ["abc123"] []).2
          = Option.none from rfl] at h
    cases h

/-- C3 (amended) -- When the user declines the overwrite prompt, the
`download` command skips the item with Python's `continue`: no download
operation and no exception for it, and the loop proceeds with the
remaining resources (and the next prompt answer). -/
theorem declined_prompt_skips_item
    (env : CliEnv) (verbose : Bool) (dest : List String)
    (r : String) (rs : List String) (k : Nat) (rec : PreviewRecord) (f : String)
    (hprev : env.previewResult r = Except.ok rec)
    (hname : nameOf rec = Option.some f)
    (hex : env.fileExists (resolveFromCwd env f) = true)
    (hans : env.promptAnswer k = false) :
    downloadGo env true verbose dest (r :: rs) k
      = (Ev.previewOp r :: (downloadGo env true verbose dest rs (k + 1)).1,
         (downloadGo env true verbose dest rs (k + 1)).2) := by
  simp [downloadGo, hprev, hname, hex, hans]

/-- Witness for the amended C3: in the concrete environment, the skip
equation holds for `"abc123"` with an empty remainder. -/
theorem declined_prompt_skips_item_witness :
    mockEnv.previewResult "abc123" = Except.ok get_preview_response
    ∧ nameOf get_preview_response = Option.some "foo.txt"
    ∧ mockEnv.fileExists (resolveFromCwd mockEnv "foo.txt") = true
    ∧ mockEnv.promptAnswer 0 = false
    ∧ downloadGo mockEnv true false ["downloads"] ["abc123"] 0
        = (Ev.previewOp "abc123" :: (downloadGo mockEnv true false ["downloads"] [] 1).1,
           (downloadGo mockEnv true false ["downloads"] [] 1).2) :=
  ⟨rfl, rfl, by decide, rfl,
    declined_prompt_skips_item mockEnv false ["downloads"] "abc123" [] 0
      get_preview_response "foo.txt" rfl rfl (by decide) rfl⟩

/-- Whether an event is a provider-client operation issued for the
resource `r`. -/
def isProviderOpFor (r : String) : Ev → Bool
  | Ev.previewOp s => s = r
  | Ev.downloadOp s _ => s = r
  | Ev.checksumAt _ => false

/-- How many provider-client operations a trace issues for `r`. -/
def providerOpCount (evs : List Ev) (r : String) : Nat :=
  (evs.filter (isProviderOpFor r)).length

/-- C4 (counterexample) -- A resource passed to the `download` command
does not result in exactly one provider-client operation: on the
plain path (no `--check`, no failure) the command issues two —
`anon.preview` and then `anon.download` — for the single identifier. -/
theorem download_issues_two_ops_for_one_item :
    downloadCommand mockEnv false false ["downloads"] ["abc123"] []
      = ([Ev.previewOp "abc123", Ev.downloadOp "abc123" ["downloads"]], Option.none)
    ∧ providerOpCount
        (downloadCommand mockEnv false false ["downloads"] ["abc123"] []).1 "abc123" = 2
    ∧ ¬ providerOpCount
        (downloadCommand mockEnv false false ["downloads"] ["abc123"] []).1 "abc123" = 1 := by
  refine ⟨rfl, rfl, ?_⟩
  intro h
  rw [show providerOpCount
        (downloadCommand mockEnv false false ["downloads"] ["abc123"] []).1 "abc123"
        = 2 from rfl] at h
  cases h

/-- C4 (amended) -- On the plain path (no `--check`, non-verbose, every
preview and download succeeding) the `download` command issues, per
user-supplied item in order, exactly one preview operation followed by
exactly one download operation, sequentially. -/
theorem download_one_preview_one_download_per_item
    (env : CliEnv) (dest : List String) (rs : List String) (k : Nat)
    (hprev : ∀ r ∈ rs, ∃ rec, env.previewResult r = Except.ok rec)
    (hdl : ∀ r ∈ rs, env.downloadResult r = Except.ok ()) :
    downloadGo env false false dest rs k
      = (rs.flatMap (fun r => [Ev.previewOp r, Ev.downloadOp r dest]), Option.none) := by
  induction rs generalizing k with
  | nil => rfl
  | cons r rs ih =>
    obtain ⟨rec, hrec⟩ := hprev r (List.mem_cons_self r rs)
    have hd := hdl r (List.mem_cons_self r rs)
    have ih' := ih k (fun s hs => hprev s (List.mem_cons_of_mem r hs))
      (fun s hs => hdl s (List.mem_cons_of_mem r hs))
    simp [downloadGo, hrec, downloadStep, hd, ih']

/-- Witness for the amended C4: the plain path in the concrete
environment issues exactly the preview-then-download pair. -/
theorem download_one_preview_one_download_per_item_witness :
    downloadGo mockEnv false false ["downloads"] ["abc123"] 0
      = ([Ev.previewOp "abc123", Ev.downloadOp "abc123" ["downloads"]], Option.none) := by
  have h := download_one_preview_one_download_per_item mockEnv ["downloads"] ["abc123"] 0
    (fun r hr => by
      simp only [List.mem_singleton] at hr
      subst hr
      exact ⟨get_preview_response, rfl⟩)
    (fun r _ => rfl)
  simpa using h

/-- Modelled from the spec: `AnonPy.download` (not among the sources)
streams the payload to a file under `destination` named per the
preview's reported name. -/
def downloadedFilePath (dest : List String) (f : String) : List String :=
  dest ++ [f]

/-- Like `mockEnv`, but the file named `foo.txt` exists in the
destination directory `downloads` and not in the working directory
`home`; prompts, were any shown, would be declined. -/
def driftEnv : CliEnv :=
  { previewResult := fun r =>
      if r = "abc123" then Except.ok get_preview_response
      else Except.error (PyExc.httpError "\x7b\"success\": false\x7d")
    downloadResult := fun _ => Except.ok ()
    fileExists := fun p => decide (p = ["downloads", "foo.txt"])
    promptAnswer := fun _ => false
    cwd := ["home"] }

/-- C10 -- Both the overwrite-existence check and the post-download MD5
computation resolve the previewed name against the working directory,
not against `args.path`: the verbose path computes the checksum at
`cwd ++ [name]`, which differs from the downloaded file's path
`dest ++ [name]` whenever `cwd ≠ dest`; and with `--check` set, a file
present only in the destination directory triggers no prompt at all —
the download proceeds (the existence check looked in the working
directory). -/
theorem existence_check_and_checksum_resolve_against_cwd
    (env : CliEnv) (dest : List String) (r : String) (k : Nat)
    (rec : PreviewRecord) (f : String)
    (hprev : env.previewResult r = Except.ok rec)
    (hname : nameOf rec = Option.some f)
    (hdl : env.downloadResult r = Except.ok ())
    (hne : env.cwd ≠ dest) :
    downloadGo env false true dest [r] k
      = ([Ev.previewOp r, Ev.downloadOp r dest, Ev.checksumAt (resolveFromCwd env f)],
         Option.none)
    ∧ resolveFromCwd env f = env.cwd ++ [f]
    ∧ resolveFromCwd env f ≠ downloadedFilePath dest f
    ∧ downloadCommand driftEnv true false ["downloads"] ["abc123"] []
        = ([Ev.previewOp "abc123", Ev.downloadOp "abc123" ["downloads"]],
           Option.none) := by
  refine ⟨?_, rfl, ?_, rfl⟩
  · simp [downloadGo, hprev, hname, downloadStep, hdl]
  · intro h
    exact hne (List.append_cancel_right h)

/-- Witness for C10: in the concrete environment (working directory
`home`, destination `downloads`), the checksum path differs from the
downloaded file's path. -/
theorem existence_check_and_checksum_resolve_against_cwd_witness :
    mockEnv.previewResult "abc123" = Except.ok get_preview_response
    ∧ nameOf get_preview_response = Option.some "foo.txt"
    ∧ mockEnv.downloadResult "abc123" = Except.ok ()
    ∧ mockEnv.cwd ≠ ["downloads"]
    ∧ resolveFromCwd mockEnv "foo.txt" ≠ downloadedFilePath ["downloads"] "foo.txt" :=
  ⟨rfl, rfl, rfl, by decide,
    (existence_check_and_checksum_resolve_against_cwd mockEnv ["downloads"] "abc123" 0
      get_preview_response "foo.txt" rfl rfl rfl (by decide)).2.2.1⟩

/-- C9 -- The mocked 24-key preview record holds non-string values (its
`size` is an integer), so the CLI `preview` command with `--verbose`
off, which prints `",".join(preview.values())`, raises `TypeError` at
the first non-string value. -/
theorem preview_nonverbose_join_raises_typeerror :
    recGet get_preview_response "size" = Option.some (PyVal.int 1024)
    ∧ previewCommand mockEnv false ["abc123"]
        = ([], Option.some (PyExc.typeError
            "sequence item 2: expected str instance, int found")) :=
  ⟨rfl, rfl⟩

/-- C7 -- With the mocked provider answering `preview("abc123")` by the
24-key record, the client's preview result has `success = true`,
`downloads = 1`, and exactly 24 (pairwise distinct) keys. -/
theorem preview_mock_record_shape :
    mockEnv.previewResult "abc123" = Except.ok get_preview_response
    ∧ recGet get_preview_response "success" = Option.some (PyVal.bool true)
    ∧ recGet get_preview_response "downloads" = Option.some (PyVal.int 1)
    ∧ (get_preview_response.map Prod.fst).length = 24
    ∧ (get_preview_response.map Prod.fst).Nodup :=
  ⟨rfl, rfl, rfl, rfl, by decide⟩

/-- An in-memory byte sink, as `io.BytesIO` presents it to the test:
a closed flag and the buffered bytes (`getvalue()`). -/
structure ByteSink where
  closed : Bool
  buffer : List Nat
  deriving DecidableEq, Repr

/-- Modelled from the spec: `MockPixelDrain.get_download_response` (the
tests' mock-data module is not among the sources) returns, for a
successful request, an open in-memory sink holding the streamed
non-empty payload bytes. -/
def get_download_response : ByteSink :=
  { closed := false, buffer := [109, 111, 99, 107] }

/-- The test's patched client call (`test_download`, lines 101-114):
`anon.download` is replaced by the mock, so
`download("abc123", Path.home())` returns the mock sink. -/
def mockedDownload (_r : String) (_dest : List String) : ByteSink :=
  get_download_response

/-- C8 -- The sink returned by the mocked
`download("abc123", <home directory>)` is not closed and its buffered
content length is greater than zero. -/
theorem download_sink_open_and_nonempty :
    (mockedDownload "abc123" ["home"]).closed = false
    ∧ 0 < (mockedDownload "abc123" ["home"]).buffer.length :=
  ⟨rfl, by decide⟩

/-- Modelled from the spec: the Scoped Logger (the anonpy logging
module is not among the sources): a configurable base path, the active
named handlers each with the ordered records persisted in its file, and
the set of existing backing-file paths. -/
structure ScopedLogger where
  basePath : List String
  handlers : List (String × List String)
  fs : List (List String)
  deriving DecidableEq, Repr

/-- Modelled from the spec: `set_base_path(path)`, fluent. -/
def ScopedLogger.set_base_path (lg : ScopedLogger) (p : List String) : ScopedLogger :=
  { lg with basePath := p }

/-- Modelled from the spec: `add_handler(name)` creates (or opens) the
backing file under the base path and appends the handler to the active
set, returning the logger for fluent chaining. -/
def ScopedLogger.add_handler (lg : ScopedLogger) (name : String) : ScopedLogger :=
  { lg with
    handlers := lg.handlers ++ [(name, [])]
    fs := (lg.basePath ++ [name]) :: lg.fs }

/-- Modelled from the spec: how a log call formats a record before
deciding whether to persist it. -/
def formatRecord (msg : String) : String := msg

/-- Modelled from the spec: a log call (`debug`, etc.) always formats
the record and returns it; unless `hide` is set it also appends the
record to every active handler's file — with `hide`, the record is
formatted but discarded. -/
def ScopedLogger.log (lg : ScopedLogger) (msg : String) (hide : Bool) :
    ScopedLogger × String :=
  let record := formatRecord msg
  (if hide then lg
   else { lg with handlers := lg.handlers.map fun h => (h.1, h.2 ++ [record]) },
   record)

/-- Modelled from the spec: `get_log_history(name)` returns the ordered
records persisted in that handler's file; an absent (e.g. unlinked)
handler reports an empty sequence rather than raising. -/
def ScopedLogger.get_log_history (lg : ScopedLogger) (name : String) : List String :=
  match lg.handlers.find? (fun h => decide (h.1 = name)) with
  | Option.some h => h.2
  | Option.none => []

/-- Modelled from the spec: `unlink(name)` deletes the handler's
backing file and removes the handler from the active set. -/
def ScopedLogger.unlink (lg : ScopedLogger) (name : String) : ScopedLogger :=
  { lg with
    handlers := lg.handlers.filter fun h => decide ¬(h.1 = name)
    fs := lg.fs.filter fun p => decide ¬(p = lg.basePath ++ [name]) }

/-- Whether the backing file at path `p` exists. -/
def ScopedLogger.fileExistsAt (lg : ScopedLogger) (p : List String) : Bool :=
  decide (p ∈ lg.fs)

/-- Modelled from the spec: a provider client as the logging test
observes it: the `enable_logging` flag, the scoped logger, and the
instrumentation call count of the (mocked) operation. -/
structure AnonClient where
  enable_logging : Bool
  logger : ScopedLogger
  callCount : Nat
  deriving DecidableEq, Repr

/-- Modelled from the spec: one logged client operation: the call count
increments unconditionally, and the operation makes its log call with
`hide` exactly when `enable_logging` is off, so persistence is
suppressed without suppressing call-site instrumentation. -/
def AnonClient.operation (c : AnonClient) (msg : String) : AnonClient :=
  { c with
    callCount := c.callCount + 1
    logger := (c.logger.log msg (!c.enable_logging)).1 }

/-- A sequence of logged client operations. -/
def AnonClient.runOps (c : AnonClient) (msgs : List String) : AnonClient :=
  msgs.foldl (fun acc msg => acc.operation msg) c

lemma operation_of_disabled (c : AnonClient) (msg : String)
    (h : c.enable_logging = false) :
    c.operation msg = { c with callCount := c.callCount + 1 } := by
  simp [AnonClient.operation, ScopedLogger.log, h]

lemma runOps_of_disabled (c : AnonClient) (msgs : List String)
    (h : c.enable_logging = false) :
    c.runOps msgs = { c with callCount := c.callCount + msgs.length } := by
  induction msgs generalizing c with
  | nil => simp [AnonClient.runOps]
  | cons m ms ih =>
    have step := operation_of_disabled c m h
    have ih' := ih { c with callCount := c.callCount + 1 } h
    calc c.runOps (m :: ms)
        = (c.operation m).runOps ms := rfl
      _ = ({ c with callCount := c.callCount + 1 } : AnonClient).runOps ms := by rw [step]
      _ = { c with callCount := c.callCount + 1 + ms.length } := ih'
      _ = { c with callCount := c.callCount + (ms.length + 1) } := by
            simp [Nat.add_assoc, Nat.add_comm 1 ms.length]
      _ = { c with callCount := c.callCount + (m :: ms).length } := by
            simp

lemma find?_map_append (hs : List (String × List String)) (n rec : String) :
    ((hs.map fun h => (h.1, h.2 ++ [rec])).find? fun h => decide (h.1 = n))
      = (hs.find? fun h => decide (h.1 = n)).map fun h => (h.1, h.2 ++ [rec]) := by
  induction hs with
  | nil => rfl
  | cons h hs ih =>
    by_cases hn : h.1 = n
    · simp [List.find?, hn]
    · simp only [List.map_cons, List.find?]
      rw [show (decide (h.1 = n)) = false by simp [hn]]
      simpa using ih

lemma log_visible_logger (lg : ScopedLogger) (msg : String) :
    (lg.log msg false).1
      = { lg with
          handlers := lg.handlers.map fun h => (h.1, h.2 ++ [formatRecord msg]) } := rfl

lemma get_log_history_log_visible (lg : ScopedLogger) (msg n : String)
    (hatt : ∃ h ∈ lg.handlers, h.1 = n) :
    ((lg.log msg false).1.get_log_history n).length
      = (lg.get_log_history n).length + 1 := by
  have hsome : (lg.handlers.find? fun h => decide (h.1 = n)).isSome := by
    rw [List.find?_isSome]
    obtain ⟨h, hmem, hn⟩ := hatt
    exact ⟨h, hmem, by simp [hn]⟩
  obtain ⟨h, hfind⟩ := Option.isSome_iff_exists.mp hsome
  rw [log_visible_logger]
  simp only [ScopedLogger.get_log_history]
  rw [find?_map_append, hfind]
  simp

/-- C5 -- Logging suppression invariant: with `enable_logging` off, any
sequence of operations leaves every handler's log history unchanged (in
particular, an empty history stays empty) while the instrumentation
call count increments once per operation; with `enable_logging` on,
each operation appends exactly one more record to every attached
handler's history; and a log call with `hide` set returns the formatted
record while leaving the logger untouched. -/
theorem logging_suppression_invariant :
    (∀ (c : AnonClient) (msgs : List String) (n : String),
       c.enable_logging = false →
       (c.runOps msgs).logger.get_log_history n = c.logger.get_log_history n
       ∧ (c.runOps msgs).callCount = c.callCount + msgs.length)
    ∧ (∀ (c : AnonClient) (msg : String) (n : String),
       c.enable_logging = true →
       (∃ h ∈ c.logger.handlers, h.1 = n) →
       ((c.operation msg).logger.get_log_history n).length
         = (c.logger.get_log_history n).length + 1)
    ∧ (∀ (lg : ScopedLogger) (msg : String),
       (lg.log msg true).1 = lg ∧ (lg.log msg true).2 = formatRecord msg) := by
  refine ⟨?_, ?_, ?_⟩
  · intro c msgs n h
    rw [runOps_of_disabled c msgs h]
    exact ⟨rfl, rfl⟩
  · intro c msg n h hatt
    have : (c.operation msg).logger = (c.logger.log msg false).1 := by
      simp [AnonClient.operation, h]
    rw [this]
    exact get_log_history_log_visible c.logger msg n hatt
  · intro lg msg
    exact ⟨rfl, rfl⟩

/-- A concrete client as the logging test builds it: base path `home`,
one handler `test.json`, logging initially off. -/
def testClient : AnonClient :=
  { enable_logging := false
    logger := (ScopedLogger.mk [] [] []).set_base_path ["home"] |>.add_handler "test.json"
    callCount := 0 }

/-- Witness for C5 at the concrete client: two operations with logging
off leave the history of `test.json` empty and set the call count to
2; switching logging on, one operation appends a record; a hidden log
call leaves the logger untouched. -/
theorem logging_suppression_invariant_witness :
    testClient.enable_logging = false
    ∧ (testClient.runOps ["a", "b"]).logger.get_log_history "test.json"
        = testClient.logger.get_log_history "test.json"
    ∧ (testClient.runOps ["a", "b"]).callCount = testClient.callCount + 2
    ∧ ((testClient.logger.log "x" true).1 = testClient.logger
        ∧ (testClient.logger.log "x" true).2 = formatRecord "x") :=
  ⟨rfl,
   (logging_suppression_invariant.1 testClient ["a", "b"] "test.json" rfl).1,
   (logging_suppression_invariant.1 testClient ["a", "b"] "test.json" rfl).2,
   logging_suppression_invariant.2.2 testClient.logger "x"⟩

lemma find?_filter_ne (hs : List (String × List String)) (name : String) :
    ((hs.filter fun h => decide ¬(h.1 = name)).find? fun h => decide (h.1 = name))
      = Option.none := by
  induction hs with
  | nil => rfl
  | cons h hs ih =>
    by_cases hn : h.1 = name
    · simp [List.filter, hn, ih]
    · simp only [List.filter]
      rw [show (decide ¬(h.1 = name)) = true by simp [hn]]
      simp only [List.find?]
      rw [show (decide (h.1 = name)) = false by simp [hn]]
      exact ih

/-- C6 -- After `unlink(name)`, the handler's backing file no longer
exists and `get_log_history(name)` returns an empty sequence rather
than raising. -/
theorem unlink_removes_file_and_empties_history
    (lg : ScopedLogger) (name : String) :
    (lg.unlink name).fileExistsAt (lg.basePath ++ [name]) = false
    ∧ (lg.unlink name).get_log_history name = [] := by
  constructor
  · simp [ScopedLogger.unlink, ScopedLogger.fileExistsAt, List.mem_filter]
  · simp only [ScopedLogger.unlink, ScopedLogger.get_log_history]
    rw [find?_filter_ne]
